import Mathlib

/-!
Shallow embedding of the SCE CICD deployment orchestrator (src/server.py and
src/metrics.py) together with proofs about the behaviour its specification
describes.

Pure data is translated directly.  Effectful code is modelled by explicit
oracles (a `SpawnResult` oracle standing for `subprocess.run`, a
`showCurrentBranch` oracle standing for `git branch --show-current`) and by
event traces recording the observable actions (metric gauge writes, command
executions, notifications, background-task scheduling).
-/

/-- The `RepoConfig` dataclass from src/server.py: one watched (name, branch)
pair, the working directory and the optional containers to force-recreate. -/
structure RepoConfig where
  name : String
  branch : String
  path : String
  containers_to_force_recreate : List String := []
deriving DecidableEq

/-- The `ExecutionResult` dataclass from src/server.py with its field defaults
(`exit_code=1`, empty stdout and stderr, `success=False`). -/
structure ExecutionResult where
  command : String
  exit_code : Int := 1
  stdout : String := ""
  stderr : String := ""
  success : Bool := false
deriving DecidableEq

/-- The `DeploymentStatus` dataclass from src/server.py with its defaults. -/
structure DeploymentStatus where
  repo : String
  branch : String
  commit_id : String := "commit_id not set"
  commit_msg : String := "commit_msg not set"
  author : String := "author not set"
  git_execution_result : Option ExecutionResult := none
  docker_execution_result : Option ExecutionResult := none
  docker_force_execution_result : Option ExecutionResult := none
  is_dev : Bool := false
deriving DecidableEq

/-- Outcome of one `subprocess.run` call: either the process completed with a
return code and captured output, or launching or running it raised an
exception (missing binary, permission denied, timeout) whose text is kept. -/
inductive SpawnResult where
  | completed (returncode : Int) (stdout : String) (stderr : String)
  | raised (errText : String)
deriving DecidableEq

/-- Python `str.strip()`: drop whitespace from both ends, written with
structural recursion over the character list. -/
def python_strip (s : String) : String :=
  String.mk ((((s.data.dropWhile Char.isWhitespace).reverse).dropWhile
    Char.isWhitespace).reverse)

/-- Python `str.split("/")` for the one-character separator, written with
structural recursion over the character list. -/
def python_split_slash (s : String) : List String :=
  (s.data.splitOn '/').map (fun cs => String.mk cs)

/-- Definition of `run_command` from src/server.py.  The `subprocess.run` call is replaced
by the `spawn` outcome for the given invocation; the `except Exception`
branch returns `ExecutionResult(command=cmd_str)` with every other field at
its dataclass default (the caught error is logged, not stored). -/
def run_command (args : List String) (cwd : String) (spawn : SpawnResult) :
    ExecutionResult :=
  let cmd_str := String.intercalate (" ") args
  match cwd, spawn with
  | _, SpawnResult.completed returncode out err =>
      { command := cmd_str
        exit_code := returncode
        stdout := python_strip out
        stderr := python_strip err
        success := returncode == 0 }
  | _, SpawnResult.raised _ => { command := cmd_str }

/-- The color and title chosen by `send_notification` in src/server.py:
default is the failure pair, overridden to the dev pair when `status.is_dev`,
else to the success pair when `not status.git_execution_result or
status.git_execution_result.success`. -/
def notification_color_title (status : DeploymentStatus) : Nat × String :=
  if status.is_dev then
    (0x99AAB5, "[Development Mode]")
  else if (match status.git_execution_result with
           | none => true
           | some r => r.success) then
    (0x57F287, "Deployment Successful")
  else
    (0xED4245, "Deployment Failed")

/-- The commit identifier displayed by `send_notification` in src/server.py:
kept verbatim, except that when no space character occurs in it the first 7
characters are taken. -/
def commit_id_to_use (commit_id : String) : String :=
  if ' ' ∈ commit_id.data then commit_id else commit_id.take 7

/-- The fields of the webhook payload dict `head_commit` entry that
src/server.py reads; an absent field models an absent dict key. -/
structure HeadCommit where
  id : Option String := none
  message : Option String := none
  author_username : Option String := none
deriving DecidableEq

/-- The fields of the inbound webhook JSON payload that src/server.py reads:
`ref` (defaulted to the empty string by `payload.get`), `repository.name`
and the optional `head_commit` object. -/
structure Payload where
  ref : String := ""
  repository_name : Option String := none
  head_commit : Option HeadCommit := none
deriving DecidableEq

/-- Observable actions performed by `handle_deploy`, in order:  setting the
`last_push_timestamp` gauge (labelled by repo, set to the current time),
invoking `run_command`, and posting the Discord notification. -/
inductive DeployEvent where
  | metricSet (repo : String)
  | ranCommand (args : List String) (cwd : String)
  | notified (status : DeploymentStatus)
deriving DecidableEq

/-- Definition of `handle_deploy` from src/server.py.  `spawn` is the oracle giving each
`subprocess.run` invocation its outcome.  Returns the final
`DeploymentStatus` together with the ordered trace of observable actions.
The Python function mutates `status` in place and returns `None`; the final
value of `status` is returned here so it can be inspected.  The trailing
`get_docker_images_disk_usage_bytes()` call is a peripheral metrics read and
is not part of the trace. -/
def handle_deploy (repo_cfg : RepoConfig) (payload : Payload) (is_dev : Bool)
    (spawn : List String → String → SpawnResult) :
    DeploymentStatus × List DeployEvent :=
  let entryEvents : List DeployEvent := [DeployEvent.metricSet repo_cfg.name]
  let commit := payload.head_commit.getD {}
  let status : DeploymentStatus :=
    { repo := repo_cfg.name
      branch := repo_cfg.branch
      commit_id := commit.id.getD ("unknown")
      commit_msg := commit.message.getD ("No message")
      author := commit.author_username.getD ("unknown")
      is_dev := is_dev }
  if is_dev then
    (status, entryEvents ++ [DeployEvent.notified status])
  else
    let gitArgs : List String := ["git", "pull", "origin", repo_cfg.branch]
    let gitResult := run_command gitArgs repo_cfg.path (spawn gitArgs repo_cfg.path)
    let status := { status with git_execution_result := some gitResult }
    let events := entryEvents ++ [DeployEvent.ranCommand gitArgs repo_cfg.path]
    if gitResult.success = false then
      (status, events ++ [DeployEvent.notified status])
    else
      let dockerArgs : List String := ["docker-compose", "up", "--build", "-d"]
      let dockerResult :=
        run_command dockerArgs repo_cfg.path (spawn dockerArgs repo_cfg.path)
      let status := { status with docker_execution_result := some dockerResult }
      let events := events ++ [DeployEvent.ranCommand dockerArgs repo_cfg.path]
      if repo_cfg.containers_to_force_recreate.isEmpty then
        (status, events ++ [DeployEvent.notified status])
      else
        let forceArgs : List String :=
          ["docker-compose", "up", "--build", "-d", "--force-recreate", "--no-deps"]
            ++ repo_cfg.containers_to_force_recreate
        let forceResult :=
          run_command forceArgs repo_cfg.path (spawn forceArgs repo_cfg.path)
        let status :=
          { status with docker_force_execution_result := some forceResult }
        (status,
          events ++ [DeployEvent.ranCommand forceArgs repo_cfg.path,
            DeployEvent.notified status])

/-- The in-band response body of the `/webhook` endpoint in src/server.py. -/
inductive WebhookResponse where
  | ignored (reason : String)
  | skipped (reason : String)
  | accepted
deriving DecidableEq

/-- Observable actions of `github_webhook` in src/server.py, in order:
setting the `last_smee_request_timestamp` gauge, running
`git branch --show-current` in a working directory, posting the
branch-mismatch Discord embed (naming the incoming and the local branch),
and handing `handle_deploy` to `background_tasks.add_task`. -/
inductive DispatchEvent where
  | smeeMetricSet
  | branchRead (path : String)
  | mismatchReported (cfg : RepoConfig) (incoming : String) (localBranch : String)
  | scheduled (cfg : RepoConfig) (payload : Payload) (is_dev : Bool)
deriving DecidableEq

/-- The branch src/server.py extracts from the payload:
`payload.get("ref", "").split("/")[-1]`. -/
def pushed_branch (payload : Payload) : String :=
  (python_split_slash payload.ref).getLastD ("")

/-- Definition of `github_webhook` from src/server.py.  `development` is `args.development`;
`repoMap` is the loaded `REPO_MAP` viewed as a finite map; `showCurrentBranch`
is the oracle giving the raw stdout of `git branch --show-current` run in a
working directory (the code strips it); `eventHeader` is the value of the
`X-GitHub-Event` header.  Returns the response body and the ordered trace of
observable actions. -/
def github_webhook (development : Bool)
    (repoMap : String × String → Option RepoConfig)
    (showCurrentBranch : String → String)
    (eventHeader : Option String) (payload : Payload) :
    WebhookResponse × List DispatchEvent :=
  let events : List DispatchEvent := [DispatchEvent.smeeMetricSet]
  if eventHeader ≠ some ("push") then
    (WebhookResponse.ignored ("event is not push"), events)
  else
    let branch := pushed_branch payload
    let target := payload.repository_name.bind (fun n => repoMap (n, branch))
    match target with
    | none => (WebhookResponse.ignored ("Repository/Branch not tracked"), events)
    | some target =>
      if development then
        (WebhookResponse.accepted,
          events ++ [DispatchEvent.scheduled target payload development])
      else
        let current_branch := python_strip (showCurrentBranch target.path)
        let events := events ++ [DispatchEvent.branchRead target.path]
        if current_branch ≠ branch then
          (WebhookResponse.skipped ("branch mismatch"),
            events ++ [DispatchEvent.mismatchReported target branch current_branch])
        else
          (WebhookResponse.accepted,
            events ++ [DispatchEvent.scheduled target payload development])

/-- Assignment `m[key] = value` on a Python dict, viewed as a finite map. -/
def dict_set (m : String × String → Option RepoConfig) (key : String × String)
    (value : RepoConfig) : String × String → Option RepoConfig :=
  fun k => if k = key then some value else m k

/-- The `REPO_MAP` construction loop in src/server.py: starting from the empty
dict, each config entry is stored under key `(cfg.name, cfg.branch)` by plain
dict assignment, so a later duplicate key overwrites an earlier one.  The
second component collects the warnings the loop emits about duplicate keys:
the loop body contains no logging call, so it is always empty. -/
def load_repo_map (raw_repos : List RepoConfig) :
    (String × String → Option RepoConfig) × List String :=
  (raw_repos.foldl (fun m cfg => dict_set m (cfg.name, cfg.branch) cfg)
    (fun _ => none), [])

/-- The mutating pipeline steps of one `handle_deploy` run, abstracted for
the concurrency analysis: the `git pull` and the `docker-compose up` in the
target working directory. -/
inductive PipeStep where
  | gitPull (path : String)
  | rebuild (path : String)
deriving DecidableEq

/-- The mutating steps one scheduled `handle_deploy` run performs in order
(non-dev, sync succeeding, no force-recreate containers). -/
def deploy_steps (cfg : RepoConfig) : List PipeStep :=
  [PipeStep.gitPull cfg.path, PipeStep.rebuild cfg.path]

/-- Schedules of two background tasks.  `github_webhook` hands each accepted
deployment to `background_tasks.add_task` with no lock, queue or per-key
token (the `DispatchEvent.scheduled` event carries none), and the Starlette
runtime runs tasks of distinct requests without mutual ordering, so every
interleaving of the two step sequences is schedulable.  `IsInterleaving t xs
ys` says trace `t` is an interleaving of task 0 running `xs` and task 1
running `ys`, each tagged with its task index. -/
inductive IsInterleaving :
    List (Nat × PipeStep) → List PipeStep → List PipeStep → Prop
  | nil : IsInterleaving [] [] []
  | left {t xs ys} (s : PipeStep) :
      IsInterleaving t xs ys → IsInterleaving ((0, s) :: t) (s :: xs) ys
  | right {t xs ys} (s : PipeStep) :
      IsInterleaving t xs ys → IsInterleaving ((1, s) :: t) xs (s :: ys)

/-- Whether a deploy-trace event is a `run_command` invocation. -/
def DeployEvent.isRanCommand : DeployEvent → Bool
  | DeployEvent.ranCommand _ _ => true
  | _ => false

/-- Whether a dispatch-trace event hands a deployment to
`background_tasks.add_task`. -/
def DispatchEvent.isScheduled : DispatchEvent → Bool
  | DispatchEvent.scheduled _ _ _ => true
  | _ => false

/-- Whether a dispatch-trace event reads the locally checked-out branch. -/
def DispatchEvent.isBranchRead : DispatchEvent → Bool
  | DispatchEvent.branchRead _ => true
  | _ => false

/-- Sample target watching the `dev` branch. -/
def cfgDev : RepoConfig :=
  { name := "sce-website", branch := "dev", path := "/srv/sce" }

/-- Sample push payload for the `dev` branch of `sce-website`. -/
def payloadDev : Payload :=
  { ref := "refs/heads/dev", repository_name := some ("sce-website") }

/-- Registry holding only `cfgDev`. -/
def mapDev : String × String → Option RepoConfig := (load_repo_map [cfgDev]).1

/-- Local-branch oracle: every working directory has `main` checked out. -/
def localMain : String → String := fun _ => "main"

/-- Sample target watching the `main` branch. -/
def cfgMain : RepoConfig :=
  { name := "sce-website", branch := "main", path := "/srv/sce" }

/-- Sample push payload for the `main` branch of `sce-website`. -/
def payloadMain : Payload :=
  { ref := "refs/heads/main", repository_name := some ("sce-website") }

/-- Registry holding only `cfgMain`. -/
def mapMain : String × String → Option RepoConfig := (load_repo_map [cfgMain]).1

/-- First of two registry entries sharing the key (sce-website, main). -/
def dupA : RepoConfig :=
  { name := "sce-website", branch := "main", path := "/srv/a" }

/-- Second of two registry entries sharing the key (sce-website, main). -/
def dupB : RepoConfig :=
  { name := "sce-website", branch := "main", path := "/srv/b" }

/-- Sample target that declares one container to force-recreate. -/
def cfgForce : RepoConfig :=
  { name := "sce-website", branch := "main", path := "/srv/sce",
    containers_to_force_recreate := ["web"] }

/-- Spawn oracle where `git pull origin main` exits 0 and every other
command fails to launch. -/
def spawnGitOk : List String → String → SpawnResult :=
  fun args _ =>
    if args = ["git", "pull", "origin", "main"] then
      SpawnResult.completed 0 ("") ("")
    else
      SpawnResult.raised ("docker-compose: command not found")

/-- Spawn oracle where every command fails to launch. -/
def spawnAllFail : List String → String → SpawnResult :=
  fun _ _ => SpawnResult.raised ("command not found")

/-- Payload with every field at its defaulted sentinel. -/
def payloadEmpty : Payload := {}


/-- Helper: evaluating the dict built by the `REPO_MAP` load loop from any
initial map: the last source entry with a matching key wins, i.e. lookup
returns the first match in the reversed source list. -/
theorem load_foldl_eval (raw_repos : List RepoConfig)
    (m : String × String → Option RepoConfig) (k : String × String) :
    (raw_repos.foldl (fun m cfg => dict_set m (cfg.name, cfg.branch) cfg) m) k =
      ((raw_repos.reverse.find? (fun c => (c.name, c.branch) == k)).elim (m k) some) := by
  induction raw_repos generalizing m with
  | nil => simp
  | cons c t ih =>
      simp only [List.foldl_cons, List.reverse_cons, List.find?_append, ih]
      cases h : t.reverse.find? (fun c => (c.name, c.branch) == k) with
      | some x => simp [h]
      | none =>
          simp only [h, Option.none_or]
          by_cases hk : (c.name, c.branch) == k
          · have hk2 : k = (c.name, c.branch) := (beq_iff_eq.mp hk).symm
            simp [List.find?, hk, dict_set, hk2]
          · have hk2 : ¬ k = (c.name, c.branch) := by
              intro he; exact absurd (beq_iff_eq.mpr he.symm) (by simpa using hk)
            simp [List.find?, hk, dict_set, hk2]

/-- C3: `run_command` never lets an exception past its boundary — it is a
total function into `ExecutionResult`, always reporting the joined command
line — and when the process fails to launch (the `except Exception` branch)
the outcome has `success=false` and the non-zero sentinel `exit_code=1`;
however the error text is only logged: `stdout` and `stderr` come back
empty, not holding the error text as the claim states. -/
theorem run_command_total_launch_failure (args : List String) (cwd : String)
    (spawn : SpawnResult) (errText : String) :
    (run_command args cwd spawn).command = String.intercalate (" ") args ∧
    run_command args cwd (SpawnResult.raised errText) =
      { command := String.intercalate (" ") args
        exit_code := 1
        stdout := ""
        stderr := ""
        success := false } := by
  refine ⟨?_, rfl⟩
  cases spawn <;> rfl

/-- C3 counterexample: a `git pull` whose launch raises
"No such file or directory" yields an outcome whose `stderr` is the empty
string, not the (non-empty) error text, refuting the claim that the error
text lands in the `stderr` field. -/
theorem run_command_stderr_empty_on_launch_failure :
    (run_command ["git", "pull"] ("/srv/sce")
        (SpawnResult.raised ("No such file or directory"))).stderr = "" ∧
    (run_command ["git", "pull"] ("/srv/sce")
        (SpawnResult.raised ("No such file or directory"))).success = false ∧
    "No such file or directory" ≠ "" := by
  refine ⟨rfl, rfl, by decide⟩

/-- C5: the severity of the report built by `send_notification`: a dev-mode
status always classifies as dev-mode regardless of any outcomes; otherwise a
status whose sync outcome is absent or successful classifies as success; and
a status whose sync outcome is present and failed classifies as failure. -/
theorem notification_severity_classification (status : DeploymentStatus) :
    (status.is_dev = true →
      notification_color_title status = (0x99AAB5, "[Development Mode]")) ∧
    (status.is_dev = false →
      (status.git_execution_result = none ∨
        (∃ r, status.git_execution_result = some r ∧ r.success = true)) →
      notification_color_title status = (0x57F287, "Deployment Successful")) ∧
    (status.is_dev = false →
      (∃ r, status.git_execution_result = some r ∧ r.success = false) →
      notification_color_title status = (0xED4245, "Deployment Failed")) := by
  refine ⟨fun hdev => by simp [notification_color_title, hdev], ?_, ?_⟩
  · rintro hdev (hnone | ⟨r, hr, hs⟩)
    · simp [notification_color_title, hdev, hnone]
    · simp [notification_color_title, hdev, hr, hs]
  · rintro hdev ⟨r, hr, hs⟩
    simp [notification_color_title, hdev, hr, hs]

/-- C5 witness: the classification at three concrete statuses — a dev-mode
run, a run with no sync outcome, and a run whose sync outcome failed. -/
theorem notification_severity_classification_witness :
    notification_color_title { repo := "sce-website", branch := "main", is_dev := true } =
      (0x99AAB5, "[Development Mode]") ∧
    notification_color_title { repo := "sce-website", branch := "main" } =
      (0x57F287, "Deployment Successful") ∧
    notification_color_title
        { repo := "sce-website", branch := "main",
          git_execution_result := some { command := "git pull origin main" } } =
      (0xED4245, "Deployment Failed") :=
  ⟨(notification_severity_classification _).1 rfl,
   (notification_severity_classification _).2.1 rfl (Or.inl rfl),
   (notification_severity_classification _).2.2 rfl
     ⟨{ command := "git pull origin main" }, rfl, rfl⟩⟩

/-- C6 counterexample: the commit id "ab\tcdefgh1" contains whitespace (a
tab) and is longer than 7 characters, so the claim displays it verbatim;
the code only tests for a space character and therefore truncates it. -/
theorem commit_id_whitespace_counterexample :
    ('\t' ∈ "ab\tcdefgh1".data ∧ ('\t').isWhitespace = true ∧
      7 < "ab\tcdefgh1".length) ∧
    commit_id_to_use ("ab\tcdefgh1") ≠ "ab\tcdefgh1" := by
  refine ⟨⟨by decide, by decide, by decide⟩, by decide⟩

/-- C6 (amended): a commit id containing a space character is displayed
verbatim; a commit id containing no space character is truncated to its
first 7 characters (identity when shorter).  In particular "abcdef1234567"
displays as "abcdef1" and "no commit info" displays unchanged. -/
theorem commit_id_display (s : String) :
    (' ' ∈ s.data → commit_id_to_use s = s) ∧
    (' ' ∉ s.data → commit_id_to_use s = s.take 7) ∧
    commit_id_to_use ("abcdef1234567") = "abcdef1" ∧
    commit_id_to_use ("no commit info") = "no commit info" := by
  refine ⟨fun h => by simp [commit_id_to_use, h], fun h => by simp [commit_id_to_use, h],
    by decide, by decide⟩

/-- C6 witness: the two concrete display facts obtained from the general
statement — the placeholder "no commit info" has a space so it is kept, and
"abcdef1234567" has none so it is cut to 7 characters. -/
theorem commit_id_display_witness :
    commit_id_to_use ("no commit info") = "no commit info" ∧
    commit_id_to_use ("abcdef1234567") = String.take ("abcdef1234567") 7 :=
  ⟨(commit_id_display ("no commit info")).1 (by decide),
   (commit_id_display ("abcdef1234567")).2.1 (by decide)⟩

/-- C7: a dev-mode deployment attempt yields a status flagged `is_dev` with
no sync, rebuild or force-recreate outcome, and its trace contains no
`run_command` invocation — no mutating command is executed — for every
target, payload and spawn oracle. -/
theorem dev_mode_run_no_outcomes (repo_cfg : RepoConfig) (payload : Payload)
    (spawn : List String → String → SpawnResult) :
    (handle_deploy repo_cfg payload true spawn).1.is_dev = true ∧
    (handle_deploy repo_cfg payload true spawn).1.git_execution_result = none ∧
    (handle_deploy repo_cfg payload true spawn).1.docker_execution_result = none ∧
    (handle_deploy repo_cfg payload true spawn).1.docker_force_execution_result = none ∧
    (handle_deploy repo_cfg payload true spawn).2.filter DeployEvent.isRanCommand = [] := by
  simp [handle_deploy, DeployEvent.isRanCommand, List.filter]

/-- C9: every deployment attempt, dev-mode or not and whatever each command
returns, begins by setting the per-repository `last_push_timestamp` gauge to
the current time: the gauge write is the first event of the trace, before
any `run_command` invocation. -/
theorem last_push_timestamp_set_at_entry (repo_cfg : RepoConfig)
    (payload : Payload) (is_dev : Bool)
    (spawn : List String → String → SpawnResult) :
    (handle_deploy repo_cfg payload is_dev spawn).2.head? =
      some (DeployEvent.metricSet repo_cfg.name) := by
  simp only [handle_deploy]
  repeat' split
  all_goals simp

/-- C1: invariants of the final `DeploymentStatus` of a non-dev deployment
attempt, for every target, payload and spawn oracle: the force-recreate
outcome is present only if the rebuild outcome is present and the target
declared containers to force-recreate; rebuild and force-recreate outcomes
are both absent whenever the sync outcome failed; and when sync succeeds and
containers are declared, the force-recreate step is attempted whatever the
rebuild outcome was. -/
theorem deployment_status_invariants (repo_cfg : RepoConfig) (payload : Payload)
    (spawn : List String → String → SpawnResult) :
    ((handle_deploy repo_cfg payload false spawn).1.docker_force_execution_result.isSome = true →
      (handle_deploy repo_cfg payload false spawn).1.docker_execution_result.isSome = true ∧
      repo_cfg.containers_to_force_recreate ≠ []) ∧
    (∀ r, (handle_deploy repo_cfg payload false spawn).1.git_execution_result = some r →
      r.success = false →
      (handle_deploy repo_cfg payload false spawn).1.docker_execution_result = none ∧
      (handle_deploy repo_cfg payload false spawn).1.docker_force_execution_result = none) ∧
    (∀ r, (handle_deploy repo_cfg payload false spawn).1.git_execution_result = some r →
      r.success = true → repo_cfg.containers_to_force_recreate ≠ [] →
      (handle_deploy repo_cfg payload false spawn).1.docker_force_execution_result.isSome = true) := by
  simp only [handle_deploy]
  repeat' split
  all_goals simp_all [List.isEmpty_iff]

/-- C1 witness: the target `cfgForce` declares one container; the spawn
oracle makes `git pull origin main` succeed while `docker-compose` fails to
launch — the force-recreate outcome is still present, and with it the
rebuild outcome, obtained from the invariants at this concrete run. -/
theorem deployment_status_invariants_witness :
    (handle_deploy cfgForce payloadEmpty false spawnGitOk).1.docker_force_execution_result.isSome = true ∧
    (handle_deploy cfgForce payloadEmpty false spawnGitOk).1.docker_execution_result.isSome = true :=
  have hforce :=
    (deployment_status_invariants cfgForce payloadEmpty spawnGitOk).2.2
      { command := "git pull origin main", exit_code := 0, stdout := "",
        stderr := "", success := true }
      (by decide) (by decide) (by decide)
  ⟨hforce, ((deployment_status_invariants cfgForce payloadEmpty spawnGitOk).1 hforce).1⟩

/-- C2 counterexample: with the development flag set, a push for the `dev`
branch of a tracked repository whose working directory has `main` checked
out is not skipped: the dispatcher answers accepted and schedules the
pipeline without consulting the branch guard, refuting the claim as an
unconditional statement about every matching push event. -/
theorem branch_mismatch_dev_mode_counterexample :
    python_strip (localMain cfgDev.path) ≠ pushed_branch payloadDev ∧
    (github_webhook true mapDev localMain (some ("push")) payloadDev).1 =
      WebhookResponse.accepted ∧
    DispatchEvent.scheduled cfgDev payloadDev true ∈
      (github_webhook true mapDev localMain (some ("push")) payloadDev).2 := by
  refine ⟨by decide, by decide, by decide⟩

/-- C2 (amended): with the development flag unset, a push event whose
(repository, branch) key matches a registry entry but whose pushed branch
differs from the stripped locally checked-out branch is answered skipped
with reason branch mismatch, a mismatch report naming both the incoming and
the local branch is emitted, and nothing is handed to the background tasks,
so `handle_deploy` — and with it any mutating command — never runs for that
event. -/
theorem branch_mismatch_skips (repoMap : String × String → Option RepoConfig)
    (showCurrentBranch : String → String) (payload : Payload)
    (repo_name : String) (target : RepoConfig)
    (hname : payload.repository_name = some repo_name)
    (htarget : repoMap (repo_name, pushed_branch payload) = some target)
    (hmismatch : python_strip (showCurrentBranch target.path) ≠ pushed_branch payload) :
    (github_webhook false repoMap showCurrentBranch (some ("push")) payload).1 =
      WebhookResponse.skipped ("branch mismatch") ∧
    DispatchEvent.mismatchReported target (pushed_branch payload)
        (python_strip (showCurrentBranch target.path)) ∈
      (github_webhook false repoMap showCurrentBranch (some ("push")) payload).2 ∧
    (github_webhook false repoMap showCurrentBranch (some ("push")) payload).2.filter
      DispatchEvent.isScheduled = [] := by
  simp [github_webhook, hname, htarget, hmismatch, DispatchEvent.isScheduled,
    List.filter]

/-- C2 witness: the mismatch path at the concrete target `cfgDev`, pushed
branch `dev`, local branch `main`. -/
theorem branch_mismatch_skips_witness :
    (github_webhook false mapDev localMain (some ("push")) payloadDev).1 =
      WebhookResponse.skipped ("branch mismatch") ∧
    DispatchEvent.mismatchReported cfgDev (pushed_branch payloadDev)
        (python_strip (localMain cfgDev.path)) ∈
      (github_webhook false mapDev localMain (some ("push")) payloadDev).2 ∧
    (github_webhook false mapDev localMain (some ("push")) payloadDev).2.filter
      DispatchEvent.isScheduled = [] :=
  branch_mismatch_skips mapDev localMain payloadDev ("sce-website") cfgDev rfl
    (by decide) (by decide)

/-- C10: with the development flag set, a push matching a registry entry is
always accepted: the pipeline is scheduled (as a dev-mode run), the trace
contains no read of the locally checked-out branch, and the answer does not
depend on the local-branch oracle at all — so the event is never answered
skipped, whatever branch is checked out locally. -/
theorem dev_mode_skips_branch_guard (repoMap : String × String → Option RepoConfig)
    (showCurrentBranch : String → String) (payload : Payload)
    (repo_name : String) (target : RepoConfig)
    (hname : payload.repository_name = some repo_name)
    (htarget : repoMap (repo_name, pushed_branch payload) = some target) :
    (github_webhook true repoMap showCurrentBranch (some ("push")) payload).1 =
      WebhookResponse.accepted ∧
    DispatchEvent.scheduled target payload true ∈
      (github_webhook true repoMap showCurrentBranch (some ("push")) payload).2 ∧
    (github_webhook true repoMap showCurrentBranch (some ("push")) payload).2.filter
      DispatchEvent.isBranchRead = [] ∧
    (∀ other : String → String,
      github_webhook true repoMap other (some ("push")) payload =
        github_webhook true repoMap showCurrentBranch (some ("push")) payload) := by
  simp [github_webhook, hname, htarget, DispatchEvent.isBranchRead, List.filter]

/-- C10 witness: the dev-mode accept path at the concrete target `cfgDev`
with `main` checked out locally while `dev` was pushed. -/
theorem dev_mode_skips_branch_guard_witness :
    (github_webhook true mapDev localMain (some ("push")) payloadDev).1 =
      WebhookResponse.accepted ∧
    DispatchEvent.scheduled cfgDev payloadDev true ∈
      (github_webhook true mapDev localMain (some ("push")) payloadDev).2 ∧
    (github_webhook true mapDev localMain (some ("push")) payloadDev).2.filter
      DispatchEvent.isBranchRead = [] ∧
    (∀ other : String → String,
      github_webhook true mapDev other (some ("push")) payloadDev =
        github_webhook true mapDev localMain (some ("push")) payloadDev) :=
  dev_mode_skips_branch_guard mapDev localMain payloadDev ("sce-website") cfgDev
    rfl (by decide)

/-- C8 counterexample: two source entries share the key (sce-website, main);
the load resolves the duplicate last-wins, but the list of warnings the load
loop emits is empty — the duplicate is silently overwritten, refuting the
claim that a warning is emitted. -/
theorem duplicate_key_silent_counterexample :
    (dupA.name, dupA.branch) = (dupB.name, dupB.branch) ∧ dupA ≠ dupB ∧
    (load_repo_map [dupA, dupB]).2 = [] ∧
    (load_repo_map [dupA, dupB]).1 ("sce-website", "main") = some dupB := by
  refine ⟨by decide, by decide, rfl, by decide⟩

/-- C8 (amended): the registry load builds a mapping keyed by (name, branch)
in which lookup returns exactly the entry with the matching key or none;
duplicate keys resolve deterministically with a last-wins policy (lookup
finds the first match in the reversed source sequence); and no warning is
emitted — the load loop overwrites a duplicate silently. -/
theorem repo_map_lookup (raw_repos : List RepoConfig) (name branch : String) :
    (load_repo_map raw_repos).1 (name, branch) =
      raw_repos.reverse.find? (fun c => (c.name, c.branch) == (name, branch)) ∧
    (∀ c, (load_repo_map raw_repos).1 (name, branch) = some c →
      c.name = name ∧ c.branch = branch ∧ c ∈ raw_repos) ∧
    ((load_repo_map raw_repos).1 (name, branch) = none →
      ∀ c ∈ raw_repos, (c.name, c.branch) ≠ (name, branch)) ∧
    (load_repo_map raw_repos).2 = [] := by
  have h1 : (load_repo_map raw_repos).1 (name, branch) =
      raw_repos.reverse.find? (fun c => (c.name, c.branch) == (name, branch)) := by
    show (raw_repos.foldl (fun m cfg => dict_set m (cfg.name, cfg.branch) cfg)
      (fun _ => none)) (name, branch) = _
    rw [load_foldl_eval]
    cases raw_repos.reverse.find? (fun c => (c.name, c.branch) == (name, branch)) <;> rfl
  refine ⟨h1, ?_, ?_, rfl⟩
  · intro c hc
    rw [h1] at hc
    have hp := List.find?_some hc
    have hmem : c ∈ raw_repos := List.mem_reverse.mp (List.mem_of_find?_eq_some hc)
    have heq : (c.name, c.branch) = (name, branch) := beq_iff_eq.mp hp
    exact ⟨congrArg Prod.fst heq, congrArg Prod.snd heq, hmem⟩
  · intro hnone c hcmem heq
    rw [h1, List.find?_eq_none] at hnone
    exact hnone c (List.mem_reverse.mpr hcmem) (beq_iff_eq.mpr heq)

/-- C8 witness: the lookup characterization at the concrete duplicate pair:
lookup is the last-wins find, and the found entry `dupB` has the matching
name and comes from the source list. -/
theorem repo_map_lookup_witness :
    (load_repo_map [dupA, dupB]).1 ("sce-website", "main") =
      [dupA, dupB].reverse.find?
        (fun c => (c.name, c.branch) == ("sce-website", "main")) ∧
    dupB.name = "sce-website" ∧ dupB ∈ [dupA, dupB] :=
  ⟨(repo_map_lookup [dupA, dupB] ("sce-website") ("main")).1,
   ((repo_map_lookup [dupA, dupB] ("sce-website") ("main")).2.1 dupB (by decide)).1,
   ((repo_map_lookup [dupA, dupB] ("sce-website") ("main")).2.1 dupB (by decide)).2.2⟩

/-- C4: the dispatcher provides no per-key serialization.  A consistent push
for `cfgMain` is accepted and its pipeline handed to the background tasks
with no lock, queue or per-key token attached; consequently, for two such
back-to-back pushes, the schedule in which the second run's `git pull`
executes between the first run's `git pull` and its rebuild — two
DeploymentPipeline runs simultaneously in flight in the same working
directory — is an admissible interleaving of the two scheduled tasks,
contradicting the claimed at-most-one-in-flight-per-key invariant. -/
theorem same_key_pipelines_can_interleave :
    (github_webhook false mapMain localMain (some ("push")) payloadMain).1 =
      WebhookResponse.accepted ∧
    DispatchEvent.scheduled cfgMain payloadMain false ∈
      (github_webhook false mapMain localMain (some ("push")) payloadMain).2 ∧
    IsInterleaving
      [(0, PipeStep.gitPull ("/srv/sce")), (1, PipeStep.gitPull ("/srv/sce")),
        (0, PipeStep.rebuild ("/srv/sce")), (1, PipeStep.rebuild ("/srv/sce"))]
      (deploy_steps cfgMain) (deploy_steps cfgMain) := by
  refine ⟨by decide, by decide, ?_⟩
  exact IsInterleaving.left _ (IsInterleaving.right _
    (IsInterleaving.left _ (IsInterleaving.right _ IsInterleaving.nil)))
